import Mathlib

/-!
Shallow embedding of `restbase/base.py` (sweetpay/restbase): the request
pipeline (`BaseConnector`), the resource layer (`BaseResource`), the
client registry (`BaseClient`) and the per-operation mock interception
(`_mock_manager` / `operation`), together with proofs of the spec claims.
-/

set_option autoImplicit false

namespace Restbase

/-- Python values, as far as the library manipulates them: strings,
integers, booleans, `None`, dicts, lists, and auto-created `Mock` results. -/
inductive Val where
  | str : String → Val
  | int : Int → Val
  | bool : Bool → Val
  | none_ : Val
  | dict : List (String × Val) → Val
  | list : List Val → Val
  | mockObj : Val
  deriving Repr

/-- An exception instance (we track the message and a tag so distinct
instances can be told apart). -/
structure Exc where
  tag : Nat
  msg : String
  deriving Repr, DecidableEq

/-- Outcome of running a piece of Python code: either a normal return
value or a raised exception. -/
inductive Outcome (α : Type) where
  | normal : α → Outcome α
  | raised : Exc → Outcome α
  deriving Repr

/-! ## The operation interceptor (`_mock_manager` and `operation`)

`_mock_manager(func)` attaches a single shared cell `func._mock` to the
operation's underlying function; `operation(func)` wraps the function so
that each call consults that cell.  We model the collection of cells as a
function from operation identifiers to an optional installed mock. -/

/-- Configuration passed to `Mock(*args, **kwargs)` by the scope opener:
an optional fixed `return_value` and an optional `side_effect` exception
instance to raise. -/
structure MockCfg where
  return_value : Option Val := none
  side_effect : Option Exc := none
  deriving Repr

/-- A `unittest.mock.Mock` stand-in: its configuration plus the list of
recorded calls, each a pair of positional arguments and keyword
arguments. -/
structure Mock where
  cfg : MockCfg
  calls : List (List Val × List (String × Val))
  deriving Repr

/-- `Mock(*args, **kwargs)`: a freshly created mock with no recorded
calls. -/
def mkMock (cfg : MockCfg) : Mock := ⟨cfg, []⟩

/-- Calling a `Mock`: the call is recorded first; then the configured
`side_effect` exception (if any) is raised, otherwise the configured
`return_value` (default: an auto-created child mock) is returned. -/
def mockCall (m : Mock) (args : List Val) (kwargs : List (String × Val)) :
    Outcome Val × Mock :=
  let m' : Mock := { m with calls := m.calls ++ [(args, kwargs)] }
  match m.cfg.side_effect with
  | some e => (.raised e, m')
  | none => (.normal (m.cfg.return_value.getD .mockObj), m')

/-- The process-wide interceptor state: one override slot (`func._mock`)
per operation definition. -/
def MockState : Type := Nat → Option Mock

/-- The initial state set up by `_mock_manager`: every slot holds
`None`. -/
def emptyMockState : MockState := fun _ => none

/-- Assign `func._mock` for operation `op` (every other slot is
untouched). -/
def setSlot (st : MockState) (op : Nat) (m : Option Mock) : MockState :=
  fun o => if o = op then m else st o

/-- Scope entry of `manager`: `func._mock = Mock(*args, **kwargs)`. -/
def mockScopeEnter (st : MockState) (op : Nat) (cfg : MockCfg) : MockState :=
  setSlot st op (some (mkMock cfg))

/-- The `manager` context manager produced by `_mock_manager`, run around
a scope body.  The generator sets the slot, yields, and afterwards runs
`func._mock = None`.  The `yield` is *not* wrapped in `try/finally`, so
when the scope body raises, `contextlib.contextmanager` throws the
exception into the generator at the `yield` and the assignment after the
`yield` never executes: the teardown line is skipped on the exception
path. -/
def mockScope {α : Type} (op : Nat) (cfg : MockCfg)
    (body : MockState → Outcome α × MockState) (st : MockState) :
    Outcome α × MockState :=
  let st1 := mockScopeEnter st op cfg
  let (r, st2) := body st1
  match r with
  | .normal v => (.normal v, setSlot st2 op none)
  | .raised e => (.raised e, st2)

/-- The wrapper installed by the `operation` decorator: `inner` checks
`if func._mock:` (a `Mock` is truthy, `None` is falsy); when the slot is
populated it calls the mock with only the explicit arguments (no
`self`), otherwise it calls the real function with the receiver
included. -/
def operationCall {Self : Type} (func : Self → List Val → List (String × Val) → Outcome Val)
    (slot : Option Mock) (self : Self) (args : List Val)
    (kwargs : List (String × Val)) : Outcome Val × Option Mock :=
  match slot with
  | some m =>
    let (r, m') := mockCall m args kwargs
    (r, some m')
  | none => (func self args kwargs, none)

/-! ## The Connector (`BaseConnector`)

The overridable hook methods (`create_headers`, `encode_data`,
`decode_data`, `pre_process_request`, `post_process_request`) and the
transport (`Session.request` of the `requests` library) are modelled as
fields of a hook record: a concrete subclass supplies them. -/

/-- HTTP headers: a dict from header name to value. -/
abbrev Headers : Type := List (String × String)

/-- The keyword arguments passed to the underlying `requests` call
(`reqkwargs`): a Python dict. -/
abbrev ReqKwargs : Type := List (String × Val)

/-- `d[k] = v` on a Python dict: replace the value under `k` if present,
otherwise append the new key. -/
def dictSet (d : List (String × Val)) (k : String) (v : Val) :
    List (String × Val) :=
  if d.any (fun p => p.1 = k) then
    d.map (fun p => if p.1 = k then (k, v) else p)
  else
    d ++ [(k, v)]

/-- The raw response object returned by the transport (`requests`):
its body text and HTTP status code. -/
structure RawResp where
  text : String
  status_code : Int
  deriving Repr

/-- `ResponseClass`: the response envelope — raw response object, status
code, decoded data. -/
structure ResponseClass where
  response : RawResp
  code : Int
  data : Val
  deriving Repr

/-- The Connector attributes set by `BaseConnector.__init__` while it is
running; each starts unset (`none`) and is filled by one assignment. -/
structure ConnInit where
  api_token : Option String := none
  test : Option Bool := none
  timeout : Option Int := none
  headers : Option Headers := none
  deriving Repr

/-- The attributes of a fully constructed Connector instance. -/
structure ConnectorState where
  api_token : String
  test : Bool
  timeout : Int
  headers : Headers
  deriving Repr

/-- The overridable methods of a concrete `BaseConnector` subclass,
plus the opaque transport primitive.  `create_headers` may read the
instance attributes assigned before it runs (e.g. `api_token`). -/
structure ConnectorHooks where
  create_headers : ConnInit → Headers
  encode_data : String → Option Val → Val
  decode_data : String → Val
  pre_process_request : String → String → ReqKwargs → ReqKwargs
  post_process_request : ResponseClass → ResponseClass
  transport : Headers → String → String → ReqKwargs → RawResp

/-- Events recorded while `BaseConnector.__init__` runs: each attribute
assignment, and the single call to `create_headers` (together with the
instance state it observed). -/
inductive InitEv where
  | assignApiToken : String → InitEv
  | assignTest : Bool → InitEv
  | assignTimeout : Int → InitEv
  | callCreateHeaders : ConnInit → InitEv
  | assignHeaders : Headers → InitEv
  deriving Repr

/-- Whether an init event is a call to `create_headers`. -/
def InitEv.isCreateHeadersCall : InitEv → Bool
  | .callCreateHeaders _ => true
  | _ => false

/-- `BaseConnector.__init__(api_token, test, timeout)`: assigns
`api_token`, `test`, `timeout` (and the logger, which carries no state we
track), then — last — `self.headers = self.create_headers()`. -/
def connectorInit (hooks : ConnectorHooks) (api_token : String) (test : Bool)
    (timeout : Int) : ConnInit × List InitEv :=
  let s0 : ConnInit := {}
  let s1 : ConnInit := { s0 with api_token := some api_token }
  let s2 : ConnInit := { s1 with test := some test }
  let s3 : ConnInit := { s2 with timeout := some timeout }
  let h := hooks.create_headers s3
  let s4 : ConnInit := { s3 with headers := some h }
  (s4, [.assignApiToken api_token, .assignTest test, .assignTimeout timeout,
        .callCreateHeaders s3, .assignHeaders h])

/-- A `requests.Session`, as far as the Connector configures it: its
headers. -/
structure Session where
  headers : Headers
  deriving Repr

/-- `BaseConnector.create_session`: a fresh session whose headers are
the stored `self.headers` (read, not recomputed). -/
def create_session (s : ConnectorState) : Session := ⟨s.headers⟩

/-- `BaseConnector.send_request`: create a fresh session and issue the
transport dispatch with it. -/
def send_request (hooks : ConnectorHooks) (s : ConnectorState)
    (method url : String) (reqkwargs : ReqKwargs) : RawResp :=
  let session := create_session s
  hooks.transport session.headers method url reqkwargs

/-- The pipeline stages of one `make_request` call, recorded in
execution order with the argument each stage received. -/
inductive StageEv where
  | encode : String → Option Val → StageEv
  | preProcess : String → String → ReqKwargs → StageEv
  | dispatch : String → String → ReqKwargs → StageEv
  | decode : String → StageEv
  | postProcess : ResponseClass → StageEv
  deriving Repr

/-- `BaseConnector.make_request(url, method, params)`: upper-case the
method, set the default request kwargs, encode the data, pre-process,
dispatch, decode, wrap in a `ResponseClass`, post-process, and return
the post-processed envelope.  Nothing is assigned to `self`, so the
instance state is returned unchanged along with the stage trace. -/
def make_request (hooks : ConnectorHooks) (s : ConnectorState)
    (url method : String) (params : Option Val) :
    ResponseClass × ConnectorState × List StageEv :=
  let M := method.toUpper
  let reqkwargs0 : ReqKwargs := [("timeout", .int s.timeout)]
  let body := hooks.encode_data M params
  let reqkwargs1 := dictSet reqkwargs0 "data" body
  let reqkwargs2 := hooks.pre_process_request M url reqkwargs1
  let resp := send_request hooks s M url reqkwargs2
  let data := hooks.decode_data resp.text
  let respcls : ResponseClass := ⟨resp, resp.status_code, data⟩
  let respcls2 := hooks.post_process_request respcls
  (respcls2, s,
   [.encode M params, .preProcess M url reqkwargs1,
    .dispatch M url reqkwargs2, .decode resp.text, .postProcess respcls])

/-- A scope body that raises, used to exhibit the exceptional exit
path. -/
def raisingBody : MockState → Outcome Unit × MockState :=
  fun st => (.raised ⟨0, "boom"⟩, st)

/-- A scope body that completes normally. -/
def normalBody : MockState → Outcome Unit × MockState :=
  fun st => (.normal (), st)

/-! ## The Resource (`BaseResource`) -/

/-- The environment-relevant attributes of a `BaseResource` instance:
the immutable `test` flag and the two URL accessors, which a subclass
may (`some`) or may not (`none`) override — the base class versions
raise `NotImplementedError`. -/
structure ResourceEnv where
  test : Bool
  test_url : Option String
  production_url : Option String
  deriving Repr

/-- `BaseResource.url`: return the test or production URL based on the
`test` flag; if the selected accessor is not overridden, the property
raises `NotImplementedError` with the corresponding message. -/
def url (r : ResourceEnv) : Except String String :=
  if r.test then
    match r.test_url with
    | some u => .ok u
    | none => .error "No URL for the test server has been specified"
  else
    match r.production_url with
    | some u => .ok u
    | none => .error "No URL for the production server has been specified"

/-- Python's `s.startswith(pre)` on strings. -/
def startswith (s pre : String) : Bool := pre.data.isPrefixOf s.data

/-- Python's `s.endswith(suf)` on strings. -/
def endswith (s suf : String) : Bool := suf.data.isSuffixOf s.data

/-- One step of `os.path.join` (POSIX): an absolute component replaces
the path built so far; otherwise the component is appended, inserting a
separator unless the path is empty or already ends with one. -/
def joinOne (path b : String) : String :=
  if startswith b "/" then b
  else if path = "" ∨ endswith path "/" then path ++ b
  else path ++ "/" ++ b

/-- `os.path.join(base, *args)` (POSIX semantics). -/
def os_path_join (base : String) (args : List String) : String :=
  args.foldl joinOne base

/-- `BaseResource._build_url(*args)`: `os.path.join(self.url, *args)` —
the `url` property is evaluated first, and its `NotImplementedError`
propagates if it raises. -/
def build_url (r : ResourceEnv) (args : List String) : Except String String :=
  match url r with
  | .ok u => .ok (os_path_join u args)
  | .error e => .error e

/-- A resource whose base URL is `"/x"`, used to exhibit a call where an
absolute path segment discards the base and yet the base remains a
prefix of the result. -/
def leakyResource : ResourceEnv := ⟨true, some "/x", none⟩

/-! ## The Client (`BaseClient`)

Registered resource implementations and connector classes are
identified by numbers; `RESOURCE_MAPPER` is the static registry of the
concrete client type. -/

/-- `BaseClient.DEFAULT_TIMEOUT`. -/
def DEFAULT_TIMEOUT : Int := 15

/-- `timeout or self.DEFAULT_TIMEOUT`: Python's `or` yields the right
operand when the left one is falsy — `None` and the integer `0` are
falsy, every other integer is truthy. -/
def timeoutOrDefault (timeout : Option Int) (dflt : Int) : Int :=
  match timeout with
  | none => dflt
  | some n => if n = 0 then dflt else n

/-- `connector or self.DEFAULT_CONNECTOR`: `None` is falsy and a class
object is always truthy. -/
def connectorOrDefault (connector : Option Nat) (dflt : Nat) : Nat :=
  match connector with
  | none => dflt
  | some c => c

/-- The keyword arguments built by `BaseClient._get_resource_arguments`:
credential token, environment flag, timeout and Connector reference. -/
structure ResourceArgs where
  api_token : String
  test : Bool
  timeout : Int
  connector : Nat
  deriving Repr, DecidableEq

/-- `BaseClient._get_resource_arguments`. -/
def get_resource_arguments (api_token : String) (test : Bool) (timeout : Int)
    (connector : Nat) : ResourceArgs :=
  ⟨api_token, test, timeout, connector⟩

/-- A bound Resource attribute: the registered implementation it
instantiates and the arguments it was instantiated with. -/
structure ResourceInst where
  cls : Nat
  args : ResourceArgs
  deriving Repr, DecidableEq

/-- The `ValueError` message raised by `_get_resource_cls` for a missing
`(namespace, version)` key. -/
def missingResourceMsg (ns : String) (v : Nat) : String :=
  "No resource with the namespace=" ++ ns ++ " and version=" ++ toString v

/-- `BaseClient._get_resource_cls`: look the `(namespace, version)` key
up in the static `RESOURCE_MAPPER`; a `KeyError` becomes a `ValueError`
naming both the namespace and the version. -/
def get_resource_cls (mapper : String × Nat → Option Nat) (ns : String)
    (v : Nat) : Except String Nat :=
  match mapper (ns, v) with
  | some cls => .ok cls
  | none => .error (missingResourceMsg ns v)

/-- `BaseClient._create_resources`: iterate the version map in order;
for each pair resolve the implementation class, instantiate it with the
resource arguments, and bind it under the namespace (`setattr`).  A
failed lookup raises immediately: the attributes bound before it stay,
nothing further is bound, and the error carries the lookup's message. -/
def create_resources (mapper : String × Nat → Option Nat)
    (args : ResourceArgs) :
    List (String × Nat) → List (String × ResourceInst) × Option String
  | [] => ([], none)
  | (ns, v) :: rest =>
    match get_resource_cls mapper ns v with
    | .ok cls =>
      let (attrs, err) := create_resources mapper args rest
      ((ns, ⟨cls, args⟩) :: attrs, err)
    | .error msg => ([], some msg)

/-- Reading a dynamically bound attribute: the first binding for the
name (the version map's keys are unique, each name is bound once). -/
def getattr (attrs : List (String × ResourceInst)) (ns : String) :
    Option ResourceInst :=
  match attrs with
  | [] => none
  | (k, r) :: rest => if k = ns then some r else getattr rest ns

/-- The observable result of `BaseClient.__init__`: the stored fields,
the bound resource attributes, and the raised configuration error if
construction failed. -/
structure ClientInit where
  api_token : String
  test : Bool
  version : List (String × Nat)
  timeout : Int
  connector : Nat
  resources : List (String × ResourceInst)
  error : Option String
  deriving Repr

/-- `BaseClient.__init__(api_token, test, version, timeout=None,
connector=None)`: store the fields — `timeout or DEFAULT_TIMEOUT`,
`connector or DEFAULT_CONNECTOR` — then `_create_resources`. -/
def clientInit (mapper : String × Nat → Option Nat) (defaultConnector : Nat)
    (api_token : String) (test : Bool) (version : List (String × Nat))
    (timeout : Option Int) (connector : Option Nat) : ClientInit :=
  let tmo := timeoutOrDefault timeout DEFAULT_TIMEOUT
  let conn := connectorOrDefault connector defaultConnector
  let (attrs, err) :=
    create_resources mapper (get_resource_arguments api_token test tmo conn)
      version
  ⟨api_token, test, version, tmo, conn, attrs, err⟩

/-- A concrete one-entry registry, mirroring the `SomeClient` of the
test suite: `("resource", 1)` maps to implementation `0`. -/
def exampleMapper : String × Nat → Option Nat :=
  fun p => if p = ("resource", 1) then some 0 else none

/-- Concrete connector hooks in the shape of the test suite's
`SomeConnector`: headers derived from the credential token, trivial
encode/decode, identity pre/post hooks, and a fixed transport reply. -/
def exampleHooks : ConnectorHooks where
  create_headers s := [("Authorization", s.api_token.getD "")]
  encode_data _ d := d.getD .none_
  decode_data raw := .str raw
  pre_process_request _ _ reqkwargs := reqkwargs
  post_process_request respcls := respcls
  transport _ _ _ _ := ⟨"{}", 200⟩

end Restbase

namespace Restbase

/-! ## Claim theorems about the interceptor -/

/-- C1: when the scope body completes normally the slot is cleared, but
when the scope body raises, the slot is left populated: the teardown
after the `yield` is skipped, so the mock stays installed after the
scope exits — contradicting the claim that the slot is cleared on every
exit path. -/
theorem mockScope_slot_leaks_on_raise :
    (mockScope 0 {} normalBody emptyMockState).2 0 = none ∧
    (mockScope 0 {} raisingBody emptyMockState).2 0 = some (mkMock {}) := by
  constructor <;> rfl

/-- C2: a call to a wrapped operation forwards to the installed mock
with exactly the explicit positional and keyword arguments (the receiver
is excluded from the recorded call), returning the configured fixed
return value or raising the configured exception instance; with the slot
empty, the call goes to the real implementation with the receiver
included. -/
theorem operation_forwarding {Self : Type}
    (func : Self → List Val → List (String × Val) → Outcome Val)
    (slot : Option Mock) (self : Self) (args : List Val)
    (kwargs : List (String × Val)) :
    (∀ m : Mock, slot = some m →
      (operationCall func slot self args kwargs).1 = (mockCall m args kwargs).1 ∧
      (operationCall func slot self args kwargs).2 =
        some { m with calls := m.calls ++ [(args, kwargs)] } ∧
      (m.cfg.side_effect = none →
        (operationCall func slot self args kwargs).1 =
          .normal (m.cfg.return_value.getD .mockObj)) ∧
      (∀ e : Exc, m.cfg.side_effect = some e →
        (operationCall func slot self args kwargs).1 = .raised e)) ∧
    (slot = none →
      (operationCall func slot self args kwargs).1 = func self args kwargs) := by
  constructor
  · intro m hm
    subst hm
    refine ⟨rfl, ?_, ?_, ?_⟩
    · simp [operationCall, mockCall]
      cases m.cfg.side_effect <;> rfl
    · intro hse
      simp [operationCall, mockCall, hse]
    · intro e hse
      simp [operationCall, mockCall, hse]
  · intro hs
    subst hs
    rfl

/-- Witness for C2: a concrete populated slot configured with a fixed
return value records the explicit arguments and returns that value, and
a concrete empty slot forwards to the real implementation. -/
theorem operation_forwarding_witness :
    (operationCall (fun (_ : Unit) _ _ => .normal (.str "real"))
        (some (mkMock { return_value := some (.dict [("status", .str "OK")]) }))
        () [.int 1] [("test", .int 2)]).1 =
      .normal (.dict [("status", .str "OK")]) ∧
    (operationCall (fun (_ : Unit) _ _ => .normal (.str "real"))
        (some (mkMock { return_value := some (.dict [("status", .str "OK")]) }))
        () [.int 1] [("test", .int 2)]).2 =
      some ⟨{ return_value := some (.dict [("status", .str "OK")]) },
            [([.int 1], [("test", .int 2)])]⟩ ∧
    (operationCall (fun (_ : Unit) _ _ => .normal (.str "real"))
        none () [] []).1 = .normal (.str "real") := by
  refine ⟨?_, ?_, ?_⟩
  · exact ((operation_forwarding _ _ _ _ _).1 _ rfl).2.2.1 rfl
  · exact ((operation_forwarding _ _ _ _ _).1 _ rfl).2.1
  · exact (operation_forwarding _ _ _ _ _).2 rfl

/-- C8: each operation has its own slot.  Installing an override for
operation `A` at scope entry leaves every other operation's slot exactly
as it was; in particular if operation `B`'s slot was empty, a call to
`B` still forwards to `B`'s real implementation. -/
theorem mock_slots_independent {Self : Type} (st : MockState) (A B : Nat)
    (cfg : MockCfg) (func : Self → List Val → List (String × Val) → Outcome Val)
    (self : Self) (args : List Val) (kwargs : List (String × Val))
    (hne : A ≠ B) :
    mockScopeEnter st A cfg B = st B ∧
    (st B = none →
      (operationCall func (mockScopeEnter st A cfg B) self args kwargs).1 =
        func self args kwargs) := by
  have hslot : mockScopeEnter st A cfg B = st B := by
    simp [mockScopeEnter, setSlot, (Ne.symm hne)]
  refine ⟨hslot, ?_⟩
  intro hB
  rw [hslot, hB]
  rfl

/-- Witness for C8: with slots 0 and 1 both empty, opening a scope on
operation 0 leaves operation 1's slot empty and calls to operation 1
still reach the real implementation. -/
theorem mock_slots_independent_witness :
    mockScopeEnter emptyMockState 0 {} 1 = emptyMockState 1 ∧
    (operationCall (fun (_ : Unit) _ _ => .normal (.str "realB"))
        (mockScopeEnter emptyMockState 0 {} 1) () [] []).1 =
      .normal (.str "realB") := by
  have h := @mock_slots_independent Unit emptyMockState 0 1 {}
    (fun _ _ _ => .normal (.str "realB")) () [] [] (by decide)
  exact ⟨h.1, h.2 rfl⟩

/-! ## Claim theorems about the Connector -/

/-- C4: the five pipeline stages of `make_request` run in the fixed
order encode → pre-process → dispatch → decode → post-process, each
stage consuming the previous stage's output: the pre-process sees the
kwargs holding the encoded body, the dispatch uses the pre-processed
kwargs, the decode receives the dispatched response's body text, the
post-process receives the envelope wrapping the decoded data, and the
call returns exactly the envelope produced by `post_process_request`. -/
theorem make_request_pipeline_order (hooks : ConnectorHooks)
    (s : ConnectorState) (url method : String) (params : Option Val) :
    ∃ (respEnv : ResponseClass) (resp : RawResp) (kwPre kwDispatch : ReqKwargs),
      kwPre = dictSet [("timeout", .int s.timeout)] "data"
        (hooks.encode_data method.toUpper params) ∧
      kwDispatch = hooks.pre_process_request method.toUpper url kwPre ∧
      resp = hooks.transport s.headers method.toUpper url kwDispatch ∧
      respEnv = ⟨resp, resp.status_code, hooks.decode_data resp.text⟩ ∧
      (make_request hooks s url method params).2.2 =
        [.encode method.toUpper params, .preProcess method.toUpper url kwPre,
         .dispatch method.toUpper url kwDispatch, .decode resp.text,
         .postProcess respEnv] ∧
      (make_request hooks s url method params).1 =
        hooks.post_process_request respEnv := by
  exact ⟨_, _, _, _, rfl, rfl, rfl, rfl, rfl, rfl⟩

/-- C6: during `BaseConnector.__init__`, `create_headers` is called
exactly once, it runs after `api_token` and `test` have been assigned
(the state it observes carries both final values), the stored headers
are exactly its result — and no operation reassigns or recomputes them:
`make_request` leaves the instance state untouched and a session reads
the stored headers verbatim. -/
theorem connector_headers_computed_once (hooks : ConnectorHooks)
    (api_token : String) (test : Bool) (timeout : Int) :
    ((connectorInit hooks api_token test timeout).2.filter
        InitEv.isCreateHeadersCall).length = 1 ∧
    (∀ obs : ConnInit,
      InitEv.callCreateHeaders obs ∈ (connectorInit hooks api_token test timeout).2 →
      obs.api_token = some api_token ∧ obs.test = some test) ∧
    (connectorInit hooks api_token test timeout).1.headers =
      some (hooks.create_headers
        ⟨some api_token, some test, some timeout, none⟩) ∧
    (∀ (s : ConnectorState) (url method : String) (params : Option Val),
      (make_request hooks s url method params).2.1 = s) ∧
    (∀ s : ConnectorState, (create_session s).headers = s.headers) := by
  refine ⟨rfl, ?_, rfl, fun _ _ _ _ => rfl, fun _ => rfl⟩
  intro obs hmem
  simp only [connectorInit, List.mem_cons, List.not_mem_nil, or_false] at hmem
  rcases hmem with h | h | h | h | h
  · simp at h
  · simp at h
  · simp at h
  · injection h with h1
    subst h1
    exact ⟨rfl, rfl⟩
  · simp at h

/-- Witness for C6: with the concrete hooks, the one `create_headers`
call during construction observes the already-assigned token and
flag. -/
theorem connector_headers_computed_once_witness :
    ConnInit.api_token ⟨some "tok", some true, some 9, none⟩ = some "tok" ∧
    ConnInit.test ⟨some "tok", some true, some 9, none⟩ = some true := by
  exact (connector_headers_computed_once exampleHooks "tok" true 9).2.1
    ⟨some "tok", some true, some 9, none⟩ (by simp [connectorInit])

/-! ## Claim theorems about the Resource -/

/-- C7: `url` returns the test base URL when the flag is set and the
production base URL when it is not, provided the selected accessor is
overridden; when the selected accessor is not overridden, `url` raises
`NotImplementedError` with the corresponding message instead of
returning a value. -/
theorem resource_url_selection (r : ResourceEnv) :
    (r.test = true → ∀ u, r.test_url = some u → url r = .ok u) ∧
    (r.test = false → ∀ u, r.production_url = some u → url r = .ok u) ∧
    (r.test = true → r.test_url = none →
      url r = .error "No URL for the test server has been specified") ∧
    (r.test = false → r.production_url = none →
      url r = .error "No URL for the production server has been specified") := by
  refine ⟨?_, ?_, ?_, ?_⟩
  · intro ht u hu
    simp [url, ht, hu]
  · intro ht u hu
    simp [url, ht, hu]
  · intro ht hu
    simp [url, ht, hu]
  · intro ht hu
    simp [url, ht, hu]

/-- Witness for C7: concrete resources in each of the four
configurations. -/
theorem resource_url_selection_witness :
    url ⟨true, some "https://t.example", some "https://p.example"⟩ =
      .ok "https://t.example" ∧
    url ⟨false, some "https://t.example", some "https://p.example"⟩ =
      .ok "https://p.example" ∧
    url ⟨true, none, some "https://p.example"⟩ =
      .error "No URL for the test server has been specified" ∧
    url ⟨false, some "https://t.example", none⟩ =
      .error "No URL for the production server has been specified" := by
  refine ⟨?_, ?_, ?_, ?_⟩
  · exact (resource_url_selection _).1 rfl _ rfl
  · exact (resource_url_selection _).2.1 rfl _ rfl
  · exact (resource_url_selection _).2.2.1 rfl rfl
  · exact (resource_url_selection _).2.2.2 rfl rfl

/-- An absolute component replaces the path accumulated so far. -/
theorem joinOne_absolute (p b : String) (hb : startswith b "/" = true) :
    joinOne p b = b := by
  simp [joinOne, hb]

/-- A relative component extends the accumulated path. -/
theorem joinOne_relative (p b : String) (hb : startswith b "/" = false) :
    ∃ s, joinOne p b = p ++ s := by
  unfold joinOne
  rw [hb]
  simp only [Bool.false_eq_true, if_false]
  split
  · exact ⟨b, rfl⟩
  · exact ⟨"/" ++ b, String.append_assoc p "/" b⟩

/-- `os.path.join` starting from any base restarts at an absolute
component. -/
theorem os_path_join_from_absolute (base : String) (pre : List String)
    (a : String) (rest : List String) (ha : startswith a "/" = true) :
    os_path_join base (pre ++ a :: rest) = os_path_join a rest := by
  unfold os_path_join
  rw [List.foldl_append]
  show List.foldl joinOne (joinOne (List.foldl joinOne base pre) a) rest = _
  rw [joinOne_absolute _ a ha]

/-- With no absolute component, `os.path.join` only ever appends to the
base. -/
theorem os_path_join_relative (args : List String)
    (h : ∀ x ∈ args, startswith x "/" = false) :
    ∀ base : String, ∃ t, os_path_join base args = base ++ t := by
  induction args with
  | nil =>
    intro base
    exact ⟨"", (String.append_empty base).symm⟩
  | cons b rest ih =>
    intro base
    obtain ⟨s, hs⟩ := joinOne_relative base b (h b (List.mem_cons_self b rest))
    obtain ⟨t, ht⟩ := ih (fun x hx => h x (List.mem_cons_of_mem b hx)) (base ++ s)
    refine ⟨s ++ t, ?_⟩
    have hstep : os_path_join base (b :: rest) = os_path_join (joinOne base b) rest := rfl
    rw [hstep, hs, ht, String.append_assoc]

/-- C10 (amended): when some segment is absolute, `_build_url` discards
the base URL and every segment preceding that absolute segment — the
result is the join of the absolute segment with the segments after it;
and when no segment is absolute, the base URL is a prefix of the
result. -/
theorem build_url_absolute_discards_base (r : ResourceEnv) (base : String)
    (pre rest : List String) (a : String)
    (hurl : url r = .ok base) (ha : startswith a "/" = true) :
    build_url r (pre ++ a :: rest) = .ok (os_path_join a rest) ∧
    (∀ args : List String, (∀ x ∈ args, startswith x "/" = false) →
      ∃ t, build_url r args = .ok (base ++ t)) := by
  constructor
  · simp [build_url, hurl, os_path_join_from_absolute base pre a rest ha]
  · intro args hargs
    obtain ⟨t, ht⟩ := os_path_join_relative args hargs base
    exact ⟨t, by simp [build_url, hurl, ht]⟩

/-- Witness for C10 (amended): a concrete call where the absolute
segment `"/q"` discards the base, and a concrete all-relative call whose
result extends the base. -/
theorem build_url_absolute_discards_base_witness :
    build_url leakyResource (["p"] ++ "/q" :: ["r"]) =
      .ok (os_path_join "/q" ["r"]) ∧
    ∃ t, build_url leakyResource ["a", "b"] = .ok ("/x" ++ t) := by
  have h := build_url_absolute_discards_base leakyResource "/x" ["p"] ["r"] "/q"
    rfl (by decide)
  exact ⟨h.1, h.2 ["a", "b"] (by decide)⟩

/-- C10 counterexample: at base URL `"/x"` and the single absolute
segment `"/x/y"`, the result is `"/x/y"`, of which the base `"/x"` *is*
a prefix even though the segment is absolute — the claim's "the base URL
is a prefix of the result only when no segment is absolute" fails at
this input. -/
theorem build_url_base_prefix_counterexample :
    url leakyResource = .ok "/x" ∧
    startswith "/x/y" "/" = true ∧
    build_url leakyResource ["/x/y"] = .ok ("/x" ++ "/y") := by
  refine ⟨rfl, by decide, by rfl⟩

/-! ## Claim theorems about the Client -/

/-- Helper: a successful `_create_resources` run binds, under each
requested and registered namespace, the instantiation of the registered
implementation with the resource arguments. -/
theorem create_resources_binds (mapper : String × Nat → Option Nat)
    (args : ResourceArgs) (version : List (String × Nat)) (ns : String)
    (v cls : Nat) (hnodup : (version.map Prod.fst).Nodup)
    (hmem : (ns, v) ∈ version) (hreg : mapper (ns, v) = some cls)
    (hok : (create_resources mapper args version).2 = none) :
    getattr (create_resources mapper args version).1 ns = some ⟨cls, args⟩ := by
  induction version with
  | nil => cases hmem
  | cons hd rest ih =>
    obtain ⟨ns', v'⟩ := hd
    rw [List.map_cons, List.nodup_cons] at hnodup
    obtain ⟨hns', hrest⟩ := hnodup
    rcases List.mem_cons.mp hmem with heq | hmem'
    · rw [Prod.mk.injEq] at heq
      obtain ⟨h1, h2⟩ := heq
      subst h1
      subst h2
      simp only [create_resources, get_resource_cls, hreg]
      simp [getattr]
    · have hne : ns ≠ ns' := by
        intro h
        exact hns' (h ▸ List.mem_map.mpr ⟨(ns, v), hmem', rfl⟩)
      cases hc : mapper (ns', v') with
      | none =>
        rw [show create_resources mapper args ((ns', v') :: rest) =
            ([], some (missingResourceMsg ns' v')) from by
          simp [create_resources, get_resource_cls, hc]] at hok
        cases hok
      | some cls' =>
        have hunfold : create_resources mapper args ((ns', v') :: rest) =
            ((ns', ⟨cls', args⟩) :: (create_resources mapper args rest).1,
             (create_resources mapper args rest).2) := by
          simp [create_resources, get_resource_cls, hc]
        rw [hunfold] at hok ⊢
        have hih := ih hrest hmem' hok
        simp only [getattr]
        rw [if_neg (Ne.symm hne)]
        exact hih

/-- Helper: an unregistered requested pair makes `_create_resources`
raise, no attribute is bound for that namespace, and when every pair
iterated before it was registered the raised message names exactly that
namespace and version. -/
theorem create_resources_missing (mapper : String × Nat → Option Nat)
    (args : ResourceArgs) (version : List (String × Nat)) (ns : String)
    (v : Nat) (hnodup : (version.map Prod.fst).Nodup)
    (hmem : (ns, v) ∈ version) (habs : mapper (ns, v) = none) :
    (create_resources mapper args version).2.isSome = true ∧
    ns ∉ (create_resources mapper args version).1.map Prod.fst ∧
    (∀ pre post, version = pre ++ (ns, v) :: post →
      (∀ p ∈ pre, (mapper p).isSome = true) →
      (create_resources mapper args version).2 =
        some (missingResourceMsg ns v)) := by
  induction version with
  | nil => cases hmem
  | cons hd rest ih =>
    obtain ⟨ns', v'⟩ := hd
    rw [List.map_cons, List.nodup_cons] at hnodup
    obtain ⟨hns', hrest⟩ := hnodup
    cases hc : mapper (ns', v') with
    | none =>
      have hunfold : create_resources mapper args ((ns', v') :: rest) =
          ([], some (missingResourceMsg ns' v')) := by
        simp [create_resources, get_resource_cls, hc]
      rw [hunfold]
      refine ⟨rfl, by simp, ?_⟩
      intro pre post hsplit hpre
      cases pre with
      | nil =>
        simp only [List.nil_append, List.cons.injEq] at hsplit
        rw [Prod.mk.injEq] at hsplit
        obtain ⟨⟨h1, h2⟩, _⟩ := hsplit
        rw [h1, h2]
      | cons q pre' =>
        simp only [List.cons_append, List.cons.injEq] at hsplit
        exfalso
        have hq : (mapper q).isSome = true :=
          hpre q (List.mem_cons_self q pre')
        rw [hsplit.1] at hc
        rw [hc] at hq
        cases hq
    | some cls' =>
      have hne' : (ns, v) ≠ (ns', v') := by
        intro h
        rw [h, hc] at habs
        cases habs
      have hmem' : (ns, v) ∈ rest := by
        rcases List.mem_cons.mp hmem with heq | hmem'
        · exact absurd heq hne'
        · exact hmem'
      have hne : ns ≠ ns' := by
        intro h
        exact hns' (h ▸ List.mem_map.mpr ⟨(ns, v), hmem', rfl⟩)
      obtain ⟨ih1, ih2, ih3⟩ := ih hrest hmem'
      have hunfold : create_resources mapper args ((ns', v') :: rest) =
          ((ns', ⟨cls', args⟩) :: (create_resources mapper args rest).1,
           (create_resources mapper args rest).2) := by
        simp [create_resources, get_resource_cls, hc]
      rw [hunfold]
      refine ⟨ih1, ?_, ?_⟩
      · simp only [List.map_cons, List.mem_cons]
        rintro (h | h)
        · exact hne h
        · exact ih2 h
      · intro pre post hsplit hpre
        cases pre with
        | nil =>
          simp only [List.nil_append, List.cons.injEq] at hsplit
          exact absurd hsplit.1.symm hne'
        | cons q pre' =>
          simp only [List.cons_append, List.cons.injEq] at hsplit
          exact ih3 pre' post hsplit.2
            (fun p hp => hpre p (List.mem_cons_of_mem q hp))

/-- C3: a requested `(namespace, version)` pair absent from the static
registry makes Client construction raise a configuration error, binds no
Resource attribute for that namespace, and — when it is the pair the
fail-fast iteration stops at, i.e. every pair before it is registered —
the error message names exactly that namespace and that version. -/
theorem client_missing_resource_error (mapper : String × Nat → Option Nat)
    (defaultConnector : Nat) (api_token : String) (test : Bool)
    (version : List (String × Nat)) (timeout : Option Int)
    (connector : Option Nat) (ns : String) (v : Nat)
    (hnodup : (version.map Prod.fst).Nodup)
    (hmem : (ns, v) ∈ version) (habs : mapper (ns, v) = none) :
    (clientInit mapper defaultConnector api_token test version timeout
        connector).error.isSome = true ∧
    ns ∉ (clientInit mapper defaultConnector api_token test version timeout
        connector).resources.map Prod.fst ∧
    (∀ pre post, version = pre ++ (ns, v) :: post →
      (∀ p ∈ pre, (mapper p).isSome = true) →
      (clientInit mapper defaultConnector api_token test version timeout
          connector).error = some (missingResourceMsg ns v)) :=
  create_resources_missing mapper _ version ns v hnodup hmem habs

/-- Witness for C3: with the one-entry registry, requesting
`{"resource": 1, "other": 2}` raises the error naming `other` and `2`,
and binds no attribute named `other`. -/
theorem client_missing_resource_error_witness :
    (clientInit exampleMapper 0 "tok" true [("resource", 1), ("other", 2)]
        none none).error = some (missingResourceMsg "other" 2) ∧
    "other" ∉ (clientInit exampleMapper 0 "tok" true
        [("resource", 1), ("other", 2)] none none).resources.map Prod.fst := by
  have h := client_missing_resource_error exampleMapper 0 "tok" true
    [("resource", 1), ("other", 2)] none none "other" 2 (by decide)
    (by decide) rfl
  exact ⟨h.2.2 [("resource", 1)] [] rfl (by decide), h.2.1⟩

/-- C5: for every registered and requested `(namespace, version)` pair,
a successful Client construction binds under the namespace attribute a
resource instance of the registered implementation, instantiated with
the client's credential token, environment flag, timeout and Connector
reference. -/
theorem client_binds_registered_resources (mapper : String × Nat → Option Nat)
    (defaultConnector : Nat) (api_token : String) (test : Bool)
    (version : List (String × Nat)) (timeout : Option Int)
    (connector : Option Nat) (ns : String) (v cls : Nat)
    (hnodup : (version.map Prod.fst).Nodup)
    (hmem : (ns, v) ∈ version) (hreg : mapper (ns, v) = some cls)
    (hok : (clientInit mapper defaultConnector api_token test version timeout
        connector).error = none) :
    getattr (clientInit mapper defaultConnector api_token test version timeout
        connector).resources ns =
      some ⟨cls, get_resource_arguments
        (clientInit mapper defaultConnector api_token test version timeout
          connector).api_token
        (clientInit mapper defaultConnector api_token test version timeout
          connector).test
        (clientInit mapper defaultConnector api_token test version timeout
          connector).timeout
        (clientInit mapper defaultConnector api_token test version timeout
          connector).connector⟩ :=
  create_resources_binds mapper _ version ns v cls hnodup hmem hreg hok

/-- Witness for C5: the one-entry registry binds `resource` to the
instantiation of implementation `0` with the token, the flag, the
default timeout `15` and connector `3`. -/
theorem client_binds_registered_resources_witness :
    getattr (clientInit exampleMapper 3 "tok" true [("resource", 1)]
        none none).resources "resource" =
      some ⟨0, get_resource_arguments "tok" true 15 3⟩ := by
  exact client_binds_registered_resources exampleMapper 3 "tok" true
    [("resource", 1)] none none "resource" 1 0 (by decide) (by decide) rfl rfl

/-- C9: `timeout or DEFAULT_TIMEOUT` — a falsy timeout argument (`None`
or the integer `0`) makes the stored timeout the default `15`; the
supplied timeout is honored exactly when it is truthy (a nonzero
integer). -/
theorem client_timeout_default_on_falsy (mapper : String × Nat → Option Nat)
    (defaultConnector : Nat) (api_token : String) (test : Bool)
    (version : List (String × Nat)) (connector : Option Nat) :
    (∀ timeout : Option Int, timeout = none ∨ timeout = some 0 →
      (clientInit mapper defaultConnector api_token test version timeout
        connector).timeout = 15) ∧
    (∀ n : Int, n ≠ 0 →
      (clientInit mapper defaultConnector api_token test version (some n)
        connector).timeout = n) := by
  constructor
  · rintro t (rfl | rfl) <;> rfl
  · intro n hn
    simp [clientInit, timeoutOrDefault, hn]

/-- Witness for C9: the integer `0`, `None`, and the nonzero integer `7`
as supplied timeouts. -/
theorem client_timeout_default_on_falsy_witness :
    (clientInit exampleMapper 0 "tok" true [] (some 0) none).timeout = 15 ∧
    (clientInit exampleMapper 0 "tok" true [] none none).timeout = 15 ∧
    (clientInit exampleMapper 0 "tok" true [] (some 7) none).timeout = 7 := by
  refine ⟨?_, ?_, ?_⟩
  · exact (client_timeout_default_on_falsy exampleMapper 0 "tok" true [] none).1
      (some 0) (Or.inr rfl)
  · exact (client_timeout_default_on_falsy exampleMapper 0 "tok" true [] none).1
      none (Or.inl rfl)
  · exact (client_timeout_default_on_falsy exampleMapper 0 "tok" true [] none).2
      7 (by decide)

end Restbase
